import Mathlib

/-!
Verification development for the cardano-forge-manager repository.

The definitions below are a shallow embedding of the Python sources
`src/cluster_manager.py` and `src/forgemanager.py`:

* pure functions become Lean functions;
* the Kubernetes object store, the filesystem, the process table and the
  `datetime` library are external collaborators, modelled as explicit
  inputs (association lists for the filesystem, `Option`/sum types for
  fallible external calls, `Int` epoch-seconds for wall-clock instants);
* module-level mutable state (`current_leadership_state`, the cached CRD,
  the credential files) becomes explicit state records that the embedded
  operations transform.

Machine integers do not overflow in the modelled code paths (Python has
arbitrary-precision integers), so `Int`/`Nat` are used directly.
-/

namespace ForgeManager

/-! ## Data model of the CardanoForgeCluster CRD (`src/cluster_manager.py`)

Dictionaries read with `.get(key, default)` are modelled as structures with
`Option` fields: a `none` field is an absent key.  `spec.get("override", {})`
yields an empty dict whose `.get("enabled", False)` is `False`, so an absent
`override` behaves exactly like `none` below. -/

structure OverrideConfig where
  enabled : Bool
  forceState : Option String
  forcePriority : Option Int
  reasonText : Option String
  expiresAt : Option String
deriving Repr, DecidableEq

structure HealthCheckConfig where
  enabled : Bool
  failureThreshold : Option Int
deriving Repr, DecidableEq

structure ClusterSpec where
  forgeState : Option String
  priority : Option Int
  override : Option OverrideConfig
  healthCheck : Option HealthCheckConfig
deriving Repr, DecidableEq

/-- The in-memory state of `ClusterForgeManager` that the decision methods
read: the `enabled` flag, the construction-time default `priority`, the last
observed CRD (`_current_cluster_crd`, `none` when no object was observed) and
the health prober's `_consecutive_health_failures` counter. -/
structure ClusterForgeManager where
  enabled : Bool
  priority : Int
  currentClusterCrd : Option ClusterSpec
  consecutiveHealthFailures : Nat
deriving Repr, DecidableEq

/-- The fall-through tail of `_calculate_effective_state_and_priority`
(`src/cluster_manager.py` lines 810-845): health-based priority adjustment
(with the hardcoded `health_threshold = 3`) followed by the terminal
`Disabled`/`Enabled` reason overrides.  Executed whenever the override block
does not return early.  The `hasattr` guard is always true for a constructed
manager. -/
def ClusterForgeManager.healthAndTerminal (m : ClusterForgeManager)
    (forgeState : String) (basePriority : Int) : String × Int × String × String :=
  let n := m.consecutiveHealthFailures
  let r1 :=
    if forgeState = "Priority-based" then
      if n ≥ 3 then
        let p := basePriority + 100
        (p, "health_degraded",
          s!"Health degraded ({n} consecutive failures), priority demoted from {basePriority} to {p}")
      else if n > 0 then
        let p := basePriority + 10
        (p, "health_intermittent",
          s!"Intermittent health issues ({n} failures), priority adjusted from {basePriority} to {p}")
      else
        (basePriority, "healthy_operation",
          s!"Healthy operation: state={forgeState}, priority={basePriority}")
    else
      (basePriority, "base_configuration",
        s!"Using base configuration: state={forgeState}, priority={basePriority}")
  if forgeState = "Disabled" then
    (forgeState, r1.1, "cluster_disabled",
      "Cluster forging explicitly disabled via spec.forgeState=Disabled")
  else if forgeState = "Enabled" then
    (forgeState, r1.1, "cluster_enabled",
      "Cluster forging explicitly enabled via spec.forgeState=Enabled")
  else
    (forgeState, r1.1, r1.2.1, r1.2.2)

/-- `ClusterForgeManager._calculate_effective_state_and_priority`
(`src/cluster_manager.py` lines 753-854).  Returns
`(effective_state, effective_priority, reason, message)`.

`parseTime` models `datetime.fromisoformat(expires_at.replace("Z","+00:00"))`:
`none` is the parse exception (caught in the source, falling through to the
health logic), `some t` the parsed instant.  `now` is `datetime.now()`.
An absent or empty `expiresAt` string is falsy in Python, so the whole
override block is skipped. -/
def ClusterForgeManager.calculateEffectiveStateAndPriority (m : ClusterForgeManager)
    (parseTime : String → Option Int) (now : Int)
    (forgeState : String) (basePriority : Int) : String × Int × String × String :=
  match m.currentClusterCrd with
  | none => m.healthAndTerminal forgeState basePriority
  | some spec =>
    match spec.override with
    | none => m.healthAndTerminal forgeState basePriority
    | some oc =>
      if oc.enabled then
        match oc.expiresAt with
        | none => m.healthAndTerminal forgeState basePriority
        | some s =>
          if s = "" then m.healthAndTerminal forgeState basePriority
          else
            match parseTime s with
            | none => m.healthAndTerminal forgeState basePriority
            | some t =>
              if now > t then
                -- Override expired, reverting to normal operation.
                m.healthAndTerminal forgeState basePriority
              else
                -- Active override: apply forceState / forcePriority and
                -- return immediately, skipping every health adjustment.
                let ocReason := oc.reasonText.getD "No reason specified"
                let st := oc.forceState.getD forgeState
                let reason1 := if oc.forceState.isSome then "manual_override" else "base_configuration"
                let msg := if oc.forceState.isSome
                  then s!"Manual override active: {ocReason}"
                  else s!"Using base configuration: state={forgeState}, priority={basePriority}"
                let pr := oc.forcePriority.getD basePriority
                let reason2 := if oc.forcePriority.isSome then "manual_override" else reason1
                (st, pr, reason2, msg)
      else m.healthAndTerminal forgeState basePriority

/-- `ClusterForgeManager.should_allow_forging` (`src/cluster_manager.py`
lines 287-333).  Returns `(forging_allowed, reason)`. -/
def ClusterForgeManager.shouldAllowForging (m : ClusterForgeManager)
    (parseTime : String → Option Int) (now : Int) : Bool × String :=
  if m.enabled = false then (true, "cluster_management_disabled")
  else
    match m.currentClusterCrd with
    | none => (true, "no_cluster_crd")
    | some spec =>
      let forgeState := spec.forgeState.getD "Priority-based"
      let basePriority := spec.priority.getD m.priority
      let r := m.calculateEffectiveStateAndPriority parseTime now forgeState basePriority
      let es := r.1
      let ep := r.2.1
      if es = "Disabled" then (false, "cluster_forge_disabled")
      else if es = "Enabled" then (true, "cluster_forge_enabled")
      else if es = "Priority-based" then
        if ep ≤ 10 then (true, s!"high_priority_{ep}")
        else (true, s!"priority_based_{ep}")
      else (true, "default_allow")

/-- Module-level `should_allow_forging` (`src/cluster_manager.py` lines
928-941): delegates to the global manager when one exists and is enabled,
otherwise answers permissively. -/
def shouldAllowForgingModule (mgr : Option ClusterForgeManager)
    (parseTime : String → Option Int) (now : Int) : Bool × String :=
  match mgr with
  | some m =>
    if m.enabled then m.shouldAllowForging parseTime now
    else (true, "cluster_management_disabled")
  | none => (true, "cluster_management_disabled")

/-- The effective state a manager computes for an observed spec: first
component of `_calculate_effective_state_and_priority` applied to the
defaulted `forgeState` and `priority`, exactly as `should_allow_forging`
extracts them. -/
def ClusterForgeManager.effectiveStateOf (m : ClusterForgeManager) (spec : ClusterSpec)
    (parseTime : String → Option Int) (now : Int) : String :=
  (m.calculateEffectiveStateAndPriority parseTime now
    (spec.forgeState.getD "Priority-based") (spec.priority.getD m.priority)).1

/-! ## Tenancy-key naming (`src/cluster_manager.py` lines 79-105) -/

/-- Python strings are sequences of code points, so `pool_id[:n]`,
`len(pool_id)` and `startswith` are modelled on the character list
underlying the Lean string. -/
def strTake (s : String) (n : Nat) : String := String.mk (s.data.take n)

def strLength (s : String) : Nat := s.data.length

def strStartsWith (s pre : String) : Bool := pre.data.isPrefixOf s.data

/-- `get_pool_short_id`. -/
def getPoolShortId (poolId : String) : String :=
  if strStartsWith poolId "pool1" then strTake poolId 10
  else if strLength poolId ≥ 8 then strTake poolId 8
  else poolId

/-- `get_multi_tenant_cluster_name`: the policy-object name.  The Python guard
`if POOL_ID and CARDANO_NETWORK and CLUSTER_REGION` tests string truthiness,
i.e. non-emptiness; otherwise the legacy `CLUSTER_IDENTIFIER` is used. -/
def getMultiTenantClusterName (network poolId region clusterIdentifier : String) : String :=
  if poolId ≠ "" ∧ network ≠ "" ∧ region ≠ "" then
    network ++ "-" ++ getPoolShortId poolId ++ "-" ++ region
  else clusterIdentifier

/-- `get_lease_name`: the lease name derived from the tenancy key.  Note that
the region does not occur in it. -/
def getLeaseName (network poolId : String) : String :=
  if poolId ≠ "" ∧ network ≠ "" then
    "cardano-leader-" ++ network ++ "-" ++ getPoolShortId poolId
  else "cardano-node-leader"

/-- A tenancy key `(network, pool id, region)` as in the spec's data model. -/
abbrev TenancyKey := String × String × String

def leaseNameOfKey (k : TenancyKey) : String := getLeaseName k.1 k.2.1

def clusterNameOfKey (k : TenancyKey) (clusterIdentifier : String) : String :=
  getMultiTenantClusterName k.1 k.2.1 k.2.2 clusterIdentifier

/-! ## Lease acquisition (`src/forgemanager.py`) -/

/-- A Kubernetes `V1Lease.spec` as read by `try_acquire_leader`:
`holder_identity`, `lease_duration_seconds`, `renew_time` (absent on a fresh
object) and `lease_transitions`.  Timestamps are epoch seconds. -/
structure LeaseRecord where
  holderIdentity : String
  leaseDurationSeconds : Int
  renewTime : Option Int
  leaseTransitions : Int
deriving Repr, DecidableEq

/-- One successful acquisition attempt of `try_acquire_leader`
(`src/forgemanager.py` lines 838-977), given the lease state it read:
expiry check, the `can_acquire` decision (renewal / takeover of an expired
lease / vacant lease), and the construction of the patched record with the
`lease_transitions` bump when taking over from a different, non-empty
holder.  The surrounding 409-conflict retry loop re-runs this same logic on
a freshly read lease; `patch_lease` is assumed to succeed here, so the
post-patch holder is this pod and the function reports `true`.  In the
`can_acquire = false` branch the source returns `holder == POD_NAME`
(necessarily false there) and leaves the lease unmodified. -/
def tryAcquireStep (podName : String) (now : Int) (lease : LeaseRecord) : Bool × LeaseRecord :=
  let holder := lease.holderIdentity
  let expired :=
    match lease.renewTime with
    | none => true
    | some rt => decide (rt + lease.leaseDurationSeconds < now)
  let canAcquire := holder == podName || expired || holder == ""
  if canAcquire then
    let newTransitions :=
      if holder ≠ podName ∧ holder ≠ "" then lease.leaseTransitions + 1
      else lease.leaseTransitions
    (true, { lease with
              holderIdentity := podName
              renewTime := some now
              leaseTransitions := newTransitions })
  else
    (holder == podName, lease)

/-! ## Filesystem and credential files -/

/-- The filesystem visible to the manager: an association list from path to
file content.  Only existence, size and removal are needed by the claims. -/
abbrev Fs := List (String × String)

def fsLookup (fs : Fs) (p : String) : Option String := fs.lookup p

def pathExists (fs : Fs) (p : String) : Bool := (fsLookup fs p).isSome

def fileSize (fs : Fs) (p : String) : Nat := ((fsLookup fs p).getD "").length

/-- `os.remove`. -/
def removeFile (fs : Fs) (p : String) : Fs := fs.filter (fun e => e.1 != p)

/-- The three target credential paths (`TARGET_KES_KEY`, `TARGET_VRF_KEY`,
`TARGET_OP_CERT`). -/
structure CredPaths where
  targetKes : String
  targetVrf : String
  targetOpCert : String
deriving Repr, DecidableEq

/-- The `credential_files` target list, in source order (kes, vrf, opcert). -/
def CredPaths.targets (c : CredPaths) : List String :=
  [c.targetKes, c.targetVrf, c.targetOpCert]

/-- The environment defaults for the target paths. -/
def defaultCredPaths : CredPaths :=
  { targetKes := "/opt/cardano/secrets/kes.skey"
    targetVrf := "/opt/cardano/secrets/vrf.skey"
    targetOpCert := "/opt/cardano/secrets/node.cert" }

/-- The credential-removal branch of `ensure_secrets` (`src/forgemanager.py`
lines 640-646), the path executed whenever `should_have_credentials` is
false — in particular on every call with `is_leader=False`, since
`should_have_credentials = is_leader and forging_allowed`.  Each existing
target file is unlinked and a change is reported. -/
def ensureSecretsAbsent (cfg : CredPaths) (fs : Fs) : Fs × Bool :=
  cfg.targets.foldl
    (fun acc dest =>
      if pathExists acc.1 dest then (removeFile acc.1 dest, true) else acc)
    (fs, false)

/-! ## CardanoLeader CRD status and leadership state -/

/-- The `status` of the CardanoLeader CRD as read and patched by
`forfeit_leadership` and `update_leader_status`: `leaderPod`,
`forgingEnabled`, `lastTransitionTime`. -/
structure LeaderStatus where
  leaderPod : String
  forgingEnabled : Bool
  lastTransitionTime : Int
deriving Repr, DecidableEq

/-- The mutable state `forfeit_leadership` touches: the module-level
`current_leadership_state` flag and `leadership_changes_total` counter, the
CardanoLeader CRD status stored in the object store (`none` = 404), the
coordination `Lease` record stored in the object store, and the credential
files. -/
structure FMState where
  currentLeadershipState : Bool
  leaderCrd : Option LeaderStatus
  lease : Option LeaseRecord
  fs : Fs
  leadershipChanges : Nat
deriving Repr, DecidableEq

/-- `forfeit_leadership` (`src/forgemanager.py` lines 346-420).  Returns the
transformed state.  If the replica does not believe it leads, nothing
happens.  Otherwise the belief is cleared, the leadership-changes counter is
bumped, credentials are removed (`ensure_secrets(is_leader=False,
send_sighup=False)`), and the CardanoLeader CRD status is patched to an
empty `leaderPod` — but only when the CRD exists and still records this pod
as leader.  The coordination `Lease` object is never touched: no
`coord_api` call occurs anywhere in the source function. -/
def forfeitLeadership (podName : String) (now : Int) (cfg : CredPaths) (s : FMState) : FMState :=
  if s.currentLeadershipState = false then s
  else
    let s1 : FMState :=
      { s with currentLeadershipState := false
               leadershipChanges := s.leadershipChanges + 1 }
    let s2 : FMState := { s1 with fs := (ensureSecretsAbsent cfg s1.fs).1 }
    match s2.leaderCrd with
    | none => s2
    | some st =>
      if st.leaderPod ≠ podName then s2
      else
        let cleared : LeaderStatus :=
          { leaderPod := "", forgingEnabled := false, lastTransitionTime := now }
        { s2 with leaderCrd := some cleared }

/-- `update_leader_status` (`src/forgemanager.py` lines 423-499), acting on
the stored CardanoLeader CRD status.  `forgingAllowed` is the value returned
by `cluster_manager.should_allow_forging()`.  A leader always patches; a
non-leader reads the live status and patches only when it still names this
pod (404 or another name: no write).  The patch body carries
`leaderPod = POD_NAME if is_leader else ""`,
`forgingEnabled = is_leader and forging_allowed` and the timestamp; a patch
against an absent object fails with 404 and changes nothing. -/
def updateLeaderStatus (podName : String) (forgingAllowed : Bool) (now : Int)
    (isLeader : Bool) (crd : Option LeaderStatus) : Option LeaderStatus :=
  let forgingEnabled := isLeader && forgingAllowed
  let shouldUpdate :=
    if isLeader then true
    else
      match crd with
      | none => false
      | some st => st.leaderPod == podName
  if shouldUpdate then
    match crd with
    | some _ =>
      some { leaderPod := if isLeader then podName else ""
             forgingEnabled := forgingEnabled
             lastTransitionTime := now }
    | none => crd
  else crd

/-! ## Startup-status HTTP endpoint -/

/-- `check_startup_credentials_ready` (`src/forgemanager.py` lines
1062-1095): ready when the `startup_credentials_provisioned` flag is set,
or when every target credential file exists and is non-empty. -/
def checkStartupCredentialsReady (cfg : CredPaths) (flag : Bool) (fs : Fs) : Bool :=
  if flag then true
  else cfg.targets.all (fun p => pathExists fs p && fileSize fs p != 0)

/-- The status code chosen by `ForgeManagerHTTPHandler.do_GET`
(`src/forgemanager.py` lines 988-1055) on the non-exceptional path:
`/metrics` and `/health` answer 200, `/startup-status` answers 200 or 503
depending on `check_startup_credentials_ready`, everything else 404. -/
def doGET (cfg : CredPaths) (path : String) (flag : Bool) (fs : Fs) : Nat :=
  if path = "/metrics" then 200
  else if path = "/startup-status" then
    (if checkStartupCredentialsReady cfg flag fs then 200 else 503)
  else if path = "/health" then 200
  else 404

/-- The claim's predicate, following the spec's words: all three target
credential paths exist with size strictly greater than 0.  Used to compare
the endpoint's actual gate against the specified one. -/
def allTargetsNonEmpty (cfg : CredPaths) (fs : Fs) : Prop :=
  ∀ p ∈ cfg.targets, pathExists fs p = true ∧ 0 < fileSize fs p

instance (cfg : CredPaths) (fs : Fs) : Decidable (allTargetsNonEmpty cfg fs) := by
  unfold allTargetsNonEmpty; infer_instance

/-! ## Reload signalling (`send_sighup_to_cardano_node`) -/

/-- Outcome of `os.kill(pid, SIGHUP)` as seen through Python's exception
taxonomy. -/
inductive KillOutcome where
  | delivered
  | noSuchProcess
  | permissionDenied
  | otherError
deriving Repr, DecidableEq

/-- The process-table collaborators of `send_sighup_to_cardano_node`:
`psutil.pid_exists`, `discover_cardano_node_pid` and `os.kill`. -/
structure ProcEnv where
  pidExists : Int → Bool
  discoverPid : Option Int
  kill : Int → KillOutcome

/-- Result of `send_sighup_to_cardano_node`: the returned boolean, the new
cached `cardano_node_pid` and the metric label incremented on
`sighup_signals_total` (`none` when no metric is recorded). -/
structure SighupResult where
  ok : Bool
  cachedPid : Option Int
  metricLabel : Option String
deriving Repr, DecidableEq

/-- The PID `send_sighup_to_cardano_node` ends up addressing: the cached one
when still alive, otherwise the freshly discovered one (`none` when
discovery fails, e.g. cross-container). -/
def resolvedPid (env : ProcEnv) (cachedPid : Option Int) : Option Int :=
  match cachedPid with
  | none => env.discoverPid
  | some p => if env.pidExists p then some p else env.discoverPid

/-- `send_sighup_to_cardano_node` (`src/forgemanager.py` lines 213-257).
No discoverable PID is the cross-container fallback: treated as delivered
(`true`) under the distinct `<reason>_skipped` label.  `ProcessLookupError`
on delivery also returns `true` (label `<reason>_cross_container`, cache
cleared); `PermissionError` and any other exception return `false` with no
metric recorded. -/
def sendSighupToCardanoNode (env : ProcEnv) (cachedPid : Option Int)
    (reason : String) : SighupResult :=
  match resolvedPid env cachedPid with
  | none => { ok := true, cachedPid := none, metricLabel := some (reason ++ "_skipped") }
  | some p =>
    match env.kill p with
    | .delivered => { ok := true, cachedPid := some p, metricLabel := some reason }
    | .noSuchProcess =>
      { ok := true, cachedPid := none, metricLabel := some (reason ++ "_cross_container") }
    | .permissionDenied => { ok := false, cachedPid := some p, metricLabel := none }
    | .otherError => { ok := false, cachedPid := some p, metricLabel := none }

/-! ## Auxiliary predicates and concrete demonstration data -/

/-- `true` when the string contains no hyphen character. -/
def noHyphen (s : String) : Bool := s.data.all (fun c => c != '-')

/-- A spec whose `healthCheck.failureThreshold` is configured to 5,
used to exhibit that the effective-state computation ignores it. -/
def thresholdDemoSpec : ClusterSpec :=
  { forgeState := some "Priority-based"
    priority := some 10
    override := none
    healthCheck := some { enabled := true, failureThreshold := some 5 } }

def thresholdDemoManager : ClusterForgeManager :=
  { enabled := true
    priority := 100
    currentClusterCrd := some thresholdDemoSpec
    consecutiveHealthFailures := 3 }

/-- A state in which this replica (`pod-0`) believes it leads, the
CardanoLeader CRD records it as leader, and the stored lease names it as
holder. -/
def forfeitDemoState : FMState :=
  { currentLeadershipState := true
    leaderCrd := some { leaderPod := "pod-0", forgingEnabled := true, lastTransitionTime := 0 }
    lease := some { holderIdentity := "pod-0", leaseDurationSeconds := 15,
                    renewTime := some 0, leaseTransitions := 0 }
    fs := []
    leadershipChanges := 0 }

def overrideDemoOc : OverrideConfig :=
  { enabled := true
    forceState := some "Enabled"
    forcePriority := some 7
    reasonText := some "failover drill"
    expiresAt := some "2026-01-01T00:00:00Z" }

def overrideDemoSpec : ClusterSpec :=
  { forgeState := some "Disabled"
    priority := some 1
    override := some overrideDemoOc
    healthCheck := none }

def overrideDemoManager : ClusterForgeManager :=
  { enabled := true
    priority := 100
    currentClusterCrd := some overrideDemoSpec
    consecutiveHealthFailures := 9 }

/-- An enabled override whose `expiresAt` is absent. -/
def staleOverrideOc : OverrideConfig :=
  { enabled := true
    forceState := some "Enabled"
    forcePriority := some 7
    reasonText := none
    expiresAt := none }

def staleOverrideSpec : ClusterSpec :=
  { forgeState := some "Priority-based"
    priority := some 10
    override := some staleOverrideOc
    healthCheck := none }

def staleOverrideManager : ClusterForgeManager :=
  { enabled := true
    priority := 100
    currentClusterCrd := some staleOverrideSpec
    consecutiveHealthFailures := 1 }

def degradedSpec : ClusterSpec :=
  { forgeState := some "Priority-based"
    priority := some 50
    override := none
    healthCheck := some { enabled := true, failureThreshold := some 9 } }

def degradedManager : ClusterForgeManager :=
  { enabled := true
    priority := 0
    currentClusterCrd := some degradedSpec
    consecutiveHealthFailures := 4 }

def intermittentManager : ClusterForgeManager :=
  { enabled := true
    priority := 0
    currentClusterCrd := some degradedSpec
    consecutiveHealthFailures := 1 }

/-! ## Support lemmas -/

theorem strData_append (a b : String) : (a ++ b).data = a.data ++ b.data := rfl

theorem strExt {a b : String} (h : a.data = b.data) : a = b := by
  cases a
  cases b
  exact congrArg String.mk h

/-- Splitting at a separator character that occurs in neither left part is
unambiguous. -/
theorem sep_split (a : List Char) : ∀ (c b d : List Char),
    (∀ x ∈ a, x ≠ '-') → (∀ x ∈ c, x ≠ '-') →
    a ++ '-' :: b = c ++ '-' :: d → a = c ∧ b = d := by
  induction a with
  | nil =>
    intro c b d _ hc h
    cases c with
    | nil => simpa using h
    | cons y ys =>
      simp only [List.nil_append, List.cons_append, List.cons.injEq] at h
      exact absurd h.1.symm (hc y (List.mem_cons_self y ys))
  | cons x xs ih =>
    intro c b d ha hc h
    cases c with
    | nil =>
      simp only [List.cons_append, List.nil_append, List.cons.injEq] at h
      exact absurd h.1 (ha x (List.mem_cons_self x xs))
    | cons y ys =>
      simp only [List.cons_append, List.cons.injEq] at h
      obtain ⟨hxy, htail⟩ := h
      have hxs : ∀ z ∈ xs, z ≠ '-' := fun z hz => ha z (List.mem_cons_of_mem x hz)
      have hys : ∀ z ∈ ys, z ≠ '-' := fun z hz => hc z (List.mem_cons_of_mem y hz)
      obtain ⟨h1, h2⟩ := ih ys b d hxs hys htail
      exact ⟨by rw [hxy, h1], h2⟩

theorem noHyphen_mem {s : String} (h : noHyphen s = true) : ∀ x ∈ s.data, x ≠ '-' := by
  intro x hx
  have := List.all_eq_true.mp h x hx
  simpa using this

/-- Equal multi-tenant lease names have equal networks and equal pool-short
ids, provided neither the networks nor the pool-short ids contain a
hyphen. -/
theorem getLeaseName_eq_components (n1 p1 n2 p2 : String)
    (hn1 : n1 ≠ "") (hp1 : p1 ≠ "") (hn2 : n2 ≠ "") (hp2 : p2 ≠ "")
    (hh1 : noHyphen n1 = true) (hh2 : noHyphen n2 = true)
    (h : getLeaseName n1 p1 = getLeaseName n2 p2) :
    n1 = n2 ∧ getPoolShortId p1 = getPoolShortId p2 := by
  rw [getLeaseName, if_pos ⟨hp1, hn1⟩, getLeaseName, if_pos ⟨hp2, hn2⟩] at h
  have hd := congrArg String.data h
  simp only [strData_append, List.append_assoc,
    show ("-" : String).data = ['-'] from rfl, List.singleton_append] at hd
  have hd2 := List.append_cancel_left hd
  obtain ⟨e1, e2⟩ := sep_split n1.data n2.data _ _ (noHyphen_mem hh1) (noHyphen_mem hh2) hd2
  exact ⟨strExt e1, strExt e2⟩

/-- Equal multi-tenant policy-object names have equal networks, pool-short
ids and regions, provided networks and pool-short ids contain no hyphen
(the region may). -/
theorem clusterName_eq_components (n1 p1 r1 n2 p2 r2 cid1 cid2 : String)
    (hn1 : n1 ≠ "") (hp1 : p1 ≠ "") (hr1 : r1 ≠ "")
    (hn2 : n2 ≠ "") (hp2 : p2 ≠ "") (hr2 : r2 ≠ "")
    (hh1 : noHyphen n1 = true) (hh2 : noHyphen n2 = true)
    (hs1 : noHyphen (getPoolShortId p1) = true) (hs2 : noHyphen (getPoolShortId p2) = true)
    (h : getMultiTenantClusterName n1 p1 r1 cid1 = getMultiTenantClusterName n2 p2 r2 cid2) :
    n1 = n2 ∧ getPoolShortId p1 = getPoolShortId p2 ∧ r1 = r2 := by
  rw [getMultiTenantClusterName, if_pos ⟨hp1, hn1, hr1⟩,
    getMultiTenantClusterName, if_pos ⟨hp2, hn2, hr2⟩] at h
  have hd := congrArg String.data h
  simp only [strData_append, List.append_assoc,
    show ("-" : String).data = ['-'] from rfl, List.singleton_append] at hd
  obtain ⟨e1, etail⟩ := sep_split n1.data n2.data _ _ (noHyphen_mem hh1) (noHyphen_mem hh2) hd
  obtain ⟨e2, e3⟩ := sep_split (getPoolShortId p1).data (getPoolShortId p2).data _ _
    (noHyphen_mem hs1) (noHyphen_mem hs2) etail
  exact ⟨strExt e1, strExt e2, strExt e3⟩

/-- The readiness check equals the flag-or-files disjunction. -/
theorem checkReady_eq (cfg : CredPaths) (flag : Bool) (fs : Fs) :
    checkStartupCredentialsReady cfg flag fs = true ↔
      (flag = true ∨ allTargetsNonEmpty cfg fs) := by
  cases flag with
  | true => simp [checkStartupCredentialsReady]
  | false =>
    simp [checkStartupCredentialsReady, allTargetsNonEmpty, List.all_eq_true,
      Bool.and_eq_true, bne_iff_ne, Nat.pos_iff_ne_zero]

/-- Whatever state `forfeit_leadership` returns, the replica no longer
believes it is the leader. -/
theorem forfeit_result_not_leader (podName : String) (now : Int) (cfg : CredPaths)
    (s : FMState) :
    (forfeitLeadership podName now cfg s).currentLeadershipState = false := by
  by_cases hb : s.currentLeadershipState = false
  · simp [forfeitLeadership, hb]
  · simp only [forfeitLeadership]
    rw [if_neg hb]
    split
    · rfl
    · split
      · rfl
      · rfl

/-- `forfeit_leadership` is a no-op whenever the replica does not believe it
is the leader. -/
theorem forfeit_noop_of_not_leader (podName : String) (now : Int) (cfg : CredPaths)
    (s : FMState) (h : s.currentLeadershipState = false) :
    forfeitLeadership podName now cfg s = s := by
  simp [forfeitLeadership, h]

/-! ## Claim theorems -/

/-- Claim C1: the forging gate `should_allow_forging` answers `false` exactly
when a manager exists, cluster management is enabled, a policy object has
been observed and the computed effective state is `Disabled`; in every other
case (effective state `Enabled` or `Priority-based`, no policy object,
cluster management disabled or no manager) it answers `true`. -/
theorem forging_false_iff_effective_disabled (mgr : Option ClusterForgeManager)
    (parseTime : String → Option Int) (now : Int) :
    (shouldAllowForgingModule mgr parseTime now).1 = false ↔
      ∃ m spec, mgr = some m ∧ m.enabled = true ∧ m.currentClusterCrd = some spec ∧
        m.effectiveStateOf spec parseTime now = "Disabled" := by
  constructor
  · intro h
    cases mgr with
    | none => simp [shouldAllowForgingModule] at h
    | some m =>
      by_cases he : m.enabled
      · cases hcrd : m.currentClusterCrd with
        | none =>
          simp [shouldAllowForgingModule, ClusterForgeManager.shouldAllowForging, he, hcrd] at h
        | some spec =>
          refine ⟨m, spec, rfl, he, hcrd, ?_⟩
          by_cases hd : m.effectiveStateOf spec parseTime now = "Disabled"
          · exact hd
          · exfalso
            rw [ClusterForgeManager.effectiveStateOf] at hd
            simp [shouldAllowForgingModule, ClusterForgeManager.shouldAllowForging,
              he, hcrd] at h
            split_ifs at h
      · simp [shouldAllowForgingModule, he] at h
  · rintro ⟨m, spec, rfl, he, hcrd, hd⟩
    rw [ClusterForgeManager.effectiveStateOf] at hd
    simp [shouldAllowForgingModule, ClusterForgeManager.shouldAllowForging, he, hcrd, hd]

/-- Claim C2: with an enabled override whose `expiresAt` parses to an
instant strictly later than `now`, the effective-state computation applies
`forceState` (when set) and `forcePriority` (when set) with reason
`manual_override`, and returns immediately: the result is independent of the
consecutive-health-failure counter. -/
theorem override_active_precedence (m : ClusterForgeManager) (spec : ClusterSpec)
    (oc : OverrideConfig) (parseTime : String → Option Int) (now t : Int) (s : String)
    (forgeState : String) (basePriority : Int)
    (hcrd : m.currentClusterCrd = some spec) (hov : spec.override = some oc)
    (hen : oc.enabled = true) (hexp : oc.expiresAt = some s) (hne : s ≠ "")
    (hparse : parseTime s = some t) (hlt : now < t) :
    (∀ fs, oc.forceState = some fs →
      (m.calculateEffectiveStateAndPriority parseTime now forgeState basePriority).1 = fs) ∧
    (∀ fp, oc.forcePriority = some fp →
      (m.calculateEffectiveStateAndPriority parseTime now forgeState basePriority).2.1 = fp) ∧
    ((oc.forceState.isSome ∨ oc.forcePriority.isSome) →
      (m.calculateEffectiveStateAndPriority parseTime now forgeState basePriority).2.2.1 =
        "manual_override") ∧
    (∀ n : Nat,
      ({ m with consecutiveHealthFailures := n } :
          ClusterForgeManager).calculateEffectiveStateAndPriority parseTime now forgeState
          basePriority =
        m.calculateEffectiveStateAndPriority parseTime now forgeState basePriority) := by
  have hng : ¬ (now > t) := by omega
  refine ⟨?_, ?_, ?_, ?_⟩
  · intro fs hfs
    simp [ClusterForgeManager.calculateEffectiveStateAndPriority, hcrd, hov, hen, hexp,
      hne, hparse, hng, hfs]
  · intro fp hfp
    simp [ClusterForgeManager.calculateEffectiveStateAndPriority, hcrd, hov, hen, hexp,
      hne, hparse, hng, hfp]
  · intro hsome
    rcases hsome with hfs | hfp
    · rcases Option.isSome_iff_exists.mp hfs with ⟨fs, hfs⟩
      rcases ho : oc.forcePriority with _ | fp
      · simp [ClusterForgeManager.calculateEffectiveStateAndPriority, hcrd, hov, hen, hexp,
          hne, hparse, hng, hfs, ho]
      · simp [ClusterForgeManager.calculateEffectiveStateAndPriority, hcrd, hov, hen, hexp,
          hne, hparse, hng, hfs, ho]
    · rcases Option.isSome_iff_exists.mp hfp with ⟨fp, hfp⟩
      simp [ClusterForgeManager.calculateEffectiveStateAndPriority, hcrd, hov, hen, hexp,
        hne, hparse, hng, hfp]
  · intro n
    simp [ClusterForgeManager.calculateEffectiveStateAndPriority, hcrd, hov, hen, hexp,
      hne, hparse, hng]

/-- Witness for C2 at a concrete active override. -/
theorem override_active_precedence_witness :
    (overrideDemoManager.calculateEffectiveStateAndPriority (fun _ => some 10) 5
        "Disabled" 1).1 = "Enabled" ∧
    (overrideDemoManager.calculateEffectiveStateAndPriority (fun _ => some 10) 5
        "Disabled" 1).2.1 = 7 ∧
    (overrideDemoManager.calculateEffectiveStateAndPriority (fun _ => some 10) 5
        "Disabled" 1).2.2.1 = "manual_override" := by
  have h := override_active_precedence overrideDemoManager overrideDemoSpec overrideDemoOc
    (fun _ => some 10) 5 10 "2026-01-01T00:00:00Z" "Disabled" 1 rfl rfl rfl rfl
    (by decide) rfl (by decide)
  exact ⟨h.1 "Enabled" rfl, h.2.1 7 rfl, h.2.2.1 (Or.inl rfl)⟩

/-- Claim C3, counterexample: with this replica the recorded holder of the
stored lease and the believed leader, `forfeit_leadership` leaves the lease
record's `holder_identity` untouched (still the pod's name, not the empty
string) — the function never patches the coordination lease. -/
theorem forfeit_leaves_lease_holder_untouched :
    forfeitDemoState.currentLeadershipState = true ∧
    forfeitDemoState.lease.map LeaseRecord.holderIdentity = some "pod-0" ∧
    (forfeitLeadership "pod-0" 100 defaultCredPaths forfeitDemoState).lease.map
        LeaseRecord.holderIdentity = some "pod-0" ∧
    "pod-0" ≠ "" := by
  refine ⟨rfl, rfl, rfl, by decide⟩

/-- Claim C3 (amended): while the replica believes it leads and the
CardanoLeader CRD status still records it as leader, `forfeit_leadership`
clears that recorded leader (the `leaderPod` field becomes empty in the
object store); the coordination lease record is left unmodified, and the
operation is idempotent — a second call changes nothing. -/
theorem forfeit_clears_recorded_leader (podName : String) (now : Int) (cfg : CredPaths)
    (s : FMState) (st : LeaderStatus)
    (hbel : s.currentLeadershipState = true)
    (hcrd : s.leaderCrd = some st) (hpod : st.leaderPod = podName) :
    (forfeitLeadership podName now cfg s).leaderCrd =
        some { leaderPod := "", forgingEnabled := false, lastTransitionTime := now } ∧
    (forfeitLeadership podName now cfg s).currentLeadershipState = false ∧
    (forfeitLeadership podName now cfg s).lease = s.lease ∧
    (∀ s2 : FMState,
      forfeitLeadership podName now cfg (forfeitLeadership podName now cfg s2) =
        forfeitLeadership podName now cfg s2) := by
  refine ⟨?_, ?_, ?_, ?_⟩
  · simp [forfeitLeadership, hbel, hcrd, hpod]
  · exact forfeit_result_not_leader podName now cfg s
  · simp [forfeitLeadership, hbel, hcrd, hpod]
  · intro s2
    exact forfeit_noop_of_not_leader podName now cfg _
      (forfeit_result_not_leader podName now cfg s2)

/-- Witness for the amended C3 at a concrete leading state. -/
theorem forfeit_clears_recorded_leader_witness :
    (forfeitLeadership "pod-0" 100 defaultCredPaths forfeitDemoState).leaderCrd =
        some { leaderPod := "", forgingEnabled := false, lastTransitionTime := 100 } ∧
    (forfeitLeadership "pod-0" 100 defaultCredPaths forfeitDemoState).currentLeadershipState =
        false ∧
    (forfeitLeadership "pod-0" 100 defaultCredPaths forfeitDemoState).lease =
        forfeitDemoState.lease := by
  have h := forfeit_clears_recorded_leader "pod-0" 100 defaultCredPaths forfeitDemoState
    { leaderPod := "pod-0", forgingEnabled := true, lastTransitionTime := 0 } rfl rfl rfl
  exact ⟨h.1, h.2.1, h.2.2.1⟩

/-- Claim C4: when the lease is acquired, `lease_transitions` is incremented
exactly when the prior holder is neither this replica nor the empty string;
renewal by the current holder and acquisition of a vacant lease leave the
counter unchanged, and an expired-lease takeover from another holder
increments it by exactly 1. -/
theorem tryAcquireStep_transitions (podName : String) (now : Int) (lease : LeaseRecord) :
    ((tryAcquireStep podName now lease).1 = true →
      (tryAcquireStep podName now lease).2.leaseTransitions =
        (if lease.holderIdentity ≠ podName ∧ lease.holderIdentity ≠ "" then
          lease.leaseTransitions + 1 else lease.leaseTransitions)) ∧
    (lease.holderIdentity = podName →
      (tryAcquireStep podName now lease).2.leaseTransitions = lease.leaseTransitions) ∧
    (lease.holderIdentity = "" →
      (tryAcquireStep podName now lease).2.leaseTransitions = lease.leaseTransitions) ∧
    (∀ rt, lease.holderIdentity ≠ podName → lease.holderIdentity ≠ "" →
      lease.renewTime = some rt → rt + lease.leaseDurationSeconds < now →
      (tryAcquireStep podName now lease).1 = true ∧
      (tryAcquireStep podName now lease).2.leaseTransitions = lease.leaseTransitions + 1) := by
  refine ⟨?_, ?_, ?_, ?_⟩
  · intro h
    by_cases hc : (lease.holderIdentity == podName || (match lease.renewTime with
        | none => true
        | some rt => decide (rt + lease.leaseDurationSeconds < now)) ||
        lease.holderIdentity == "") = true
    · simp [tryAcquireStep, hc]
    · simp [tryAcquireStep, hc] at h
      simp [h] at hc
  · intro hp
    simp [tryAcquireStep, hp]
  · intro hv
    simp [tryAcquireStep, hv]
  · intro rt hp hv hrt hlt
    simp [tryAcquireStep, hrt, hp, hv, hlt]

/-- Witness for C4: a concrete expired-lease takeover bumps the counter from
5 to 6. -/
theorem tryAcquireStep_transitions_witness :
    (tryAcquireStep "pod-b" 100
      { holderIdentity := "pod-a", leaseDurationSeconds := 15, renewTime := some 0,
        leaseTransitions := 5 }).1 = true ∧
    (tryAcquireStep "pod-b" 100
      { holderIdentity := "pod-a", leaseDurationSeconds := 15, renewTime := some 0,
        leaseTransitions := 5 }).2.leaseTransitions = 5 + 1 := by
  exact (tryAcquireStep_transitions "pod-b" 100
    { holderIdentity := "pod-a", leaseDurationSeconds := 15, renewTime := some 0,
      leaseTransitions := 5 }).2.2.2 0 (by decide) (by decide) rfl (by decide)

/-- Claim C5, counterexample: with `healthCheck.failureThreshold = 5` and
3 consecutive failures (so `0 < 3 < 5`), the computation nonetheless applies
the full degradation penalty `+100` with reason `health_degraded` — the
configured threshold is ignored in favour of a hardcoded 3, refuting the
claim that `0 < failures < failureThreshold` yields `+10` and
`health_intermittent`. -/
theorem healthPenalty_ignores_configured_threshold :
    thresholdDemoSpec.healthCheck = some { enabled := true, failureThreshold := some 5 } ∧
    thresholdDemoManager.consecutiveHealthFailures = 3 ∧
    (0 : Int) < 3 ∧ (3 : Int) < 5 ∧
    (thresholdDemoManager.calculateEffectiveStateAndPriority (fun _ => none) 0
      (thresholdDemoSpec.forgeState.getD "Priority-based")
      (thresholdDemoSpec.priority.getD thresholdDemoManager.priority)).2.1 = 110 ∧
    (thresholdDemoManager.calculateEffectiveStateAndPriority (fun _ => none) 0
      (thresholdDemoSpec.forgeState.getD "Priority-based")
      (thresholdDemoSpec.priority.getD thresholdDemoManager.priority)).2.2.1 =
        "health_degraded" ∧
    (110 : Int) ≠ 10 + 10 ∧ "health_degraded" ≠ "health_intermittent" := by
  refine ⟨rfl, rfl, by norm_num, by norm_num, rfl, rfl, by norm_num, by decide⟩

/-- Claim C5 (amended): in `Priority-based` state with no override, the
health penalty uses the hardcoded threshold 3 — regardless of the spec's
`healthCheck.failureThreshold`: `failures ≥ 3` yields `basePriority + 100`
with `health_degraded`, and `0 < failures < 3` yields `basePriority + 10`
with `health_intermittent`. -/
theorem healthPenalty_hardcoded_three (m : ClusterForgeManager) (spec : ClusterSpec)
    (parseTime : String → Option Int) (now : Int) (basePriority : Int)
    (hcrd : m.currentClusterCrd = some spec) (hov : spec.override = none) :
    (m.consecutiveHealthFailures ≥ 3 →
      (m.calculateEffectiveStateAndPriority parseTime now "Priority-based" basePriority).2.1 =
          basePriority + 100 ∧
      (m.calculateEffectiveStateAndPriority parseTime now "Priority-based" basePriority).2.2.1 =
          "health_degraded") ∧
    (0 < m.consecutiveHealthFailures → m.consecutiveHealthFailures < 3 →
      (m.calculateEffectiveStateAndPriority parseTime now "Priority-based" basePriority).2.1 =
          basePriority + 10 ∧
      (m.calculateEffectiveStateAndPriority parseTime now "Priority-based" basePriority).2.2.1 =
          "health_intermittent") := by
  constructor
  · intro hge
    simp [ClusterForgeManager.calculateEffectiveStateAndPriority, hcrd, hov,
      ClusterForgeManager.healthAndTerminal, hge]
  · intro hpos hlt
    have hge : ¬ m.consecutiveHealthFailures ≥ 3 := by omega
    simp [ClusterForgeManager.calculateEffectiveStateAndPriority, hcrd, hov,
      ClusterForgeManager.healthAndTerminal, hge, hpos]

/-- Witness for the amended C5 at 4 and at 1 consecutive failures. -/
theorem healthPenalty_hardcoded_three_witness :
    (degradedManager.calculateEffectiveStateAndPriority (fun _ => none) 0
        "Priority-based" 50).2.1 = 50 + 100 ∧
    (degradedManager.calculateEffectiveStateAndPriority (fun _ => none) 0
        "Priority-based" 50).2.2.1 = "health_degraded" ∧
    (intermittentManager.calculateEffectiveStateAndPriority (fun _ => none) 0
        "Priority-based" 50).2.1 = 50 + 10 ∧
    (intermittentManager.calculateEffectiveStateAndPriority (fun _ => none) 0
        "Priority-based" 50).2.2.1 = "health_intermittent" := by
  have h4 := healthPenalty_hardcoded_three degradedManager degradedSpec (fun _ => none) 0 50
    rfl rfl
  have h1 := healthPenalty_hardcoded_three intermittentManager degradedSpec (fun _ => none) 0 50
    rfl rfl
  exact ⟨(h4.1 (by decide)).1, (h4.1 (by decide)).2,
    (h1.2 (by decide) (by decide)).1, (h1.2 (by decide) (by decide)).2⟩

/-- Claim C6, counterexample: with the `startup_credentials_provisioned`
flag set and an empty filesystem (no target credential file exists),
`GET /startup-status` answers 200 — refuting "200 if and only if all three
target credential files exist with size > 0". -/
theorem startupStatus_flag_shortcut :
    doGET defaultCredPaths "/startup-status" true [] = 200 ∧
    ¬ allTargetsNonEmpty defaultCredPaths ([] : Fs) := by
  refine ⟨rfl, by decide⟩

/-- Claim C6 (amended): `GET /startup-status` responds 200 iff the
`startup_credentials_provisioned` flag is set or all three target credential
files exist with size > 0, and 503 in every other case; in particular, with
the flag unset, 200 iff all three files exist non-empty. -/
theorem startupStatus_200_iff (cfg : CredPaths) (flag : Bool) (fs : Fs) :
    (doGET cfg "/startup-status" flag fs = 200 ↔
      (flag = true ∨ allTargetsNonEmpty cfg fs)) ∧
    (doGET cfg "/startup-status" flag fs = 503 ↔
      ¬(flag = true ∨ allTargetsNonEmpty cfg fs)) := by
  have h1 : doGET cfg "/startup-status" flag fs =
      (if checkStartupCredentialsReady cfg flag fs then 200 else 503) := by
    rfl
  by_cases hc : checkStartupCredentialsReady cfg flag fs = true
  · rw [h1]
    simp [hc, ← checkReady_eq cfg flag fs]
  · rw [h1]
    rw [Bool.not_eq_true] at hc
    rw [if_neg (by simp [hc])]
    have hno : ¬ (flag = true ∨ allTargetsNonEmpty cfg fs) := by
      rw [← checkReady_eq cfg flag fs, hc]
      simp
    constructor
    · constructor
      · intro h
        omega
      · intro h
        exact absurd h hno
    · simp [hno]

/-- Claim C7: `update_leader_status` called as a non-leader patches the
stored CardanoLeader CRD status only when its published `leaderPod` equals
this replica's name, in which case it is cleared; when it names another
replica, is empty, or the object is absent, the status is left entirely
unchanged. -/
theorem updateLeaderStatus_nonleader_frame (podName : String) (forgingAllowed : Bool)
    (now : Int) (crd : Option LeaderStatus) :
    updateLeaderStatus podName forgingAllowed now false crd =
      (match crd with
       | some st =>
         if st.leaderPod = podName then
           some { leaderPod := "", forgingEnabled := false, lastTransitionTime := now }
         else crd
       | none => crd) := by
  cases crd with
  | none => rfl
  | some st =>
    by_cases h : st.leaderPod = podName
    · simp [updateLeaderStatus, h]
    · simp [updateLeaderStatus, h]

/-- Claim C8, counterexample: two distinct tenancy keys — same network and
region, different pool ids sharing the 10-character truncation
`pool1abcde` — derive the same lease name and the same policy-object name,
refuting the claimed injectivity. -/
theorem tenancy_name_collision :
    (("mainnet", "pool1abcdefgh", "us-east-1") : TenancyKey) ≠
      (("mainnet", "pool1abcdeZZZ", "us-east-1") : TenancyKey) ∧
    leaseNameOfKey ("mainnet", "pool1abcdefgh", "us-east-1") =
      leaseNameOfKey ("mainnet", "pool1abcdeZZZ", "us-east-1") ∧
    clusterNameOfKey ("mainnet", "pool1abcdefgh", "us-east-1") "legacy-id" =
      clusterNameOfKey ("mainnet", "pool1abcdeZZZ", "us-east-1") "legacy-id" := by
  refine ⟨by decide, rfl, rfl⟩

/-- Claim C8 (amended): the derived names separate tenancy keys only up to
the pool-short truncation and, for the lease name, up to the region: for
nonempty components with hyphen-free networks and hyphen-free pool-short
ids, keys with distinct `(network, pool-short)` derive distinct lease
names, and keys with distinct `(network, pool-short, region)` derive
distinct policy-object names. -/
theorem tenancy_names_differ_on_distinct_components (n1 p1 r1 n2 p2 r2 cid1 cid2 : String)
    (hn1 : n1 ≠ "") (hp1 : p1 ≠ "") (hr1 : r1 ≠ "")
    (hn2 : n2 ≠ "") (hp2 : p2 ≠ "") (hr2 : r2 ≠ "")
    (hh1 : noHyphen n1 = true) (hh2 : noHyphen n2 = true)
    (hs1 : noHyphen (getPoolShortId p1) = true) (hs2 : noHyphen (getPoolShortId p2) = true) :
    ((n1, getPoolShortId p1) ≠ (n2, getPoolShortId p2) →
      getLeaseName n1 p1 ≠ getLeaseName n2 p2) ∧
    ((n1, getPoolShortId p1, r1) ≠ (n2, getPoolShortId p2, r2) →
      getMultiTenantClusterName n1 p1 r1 cid1 ≠ getMultiTenantClusterName n2 p2 r2 cid2) := by
  constructor
  · intro hne h
    obtain ⟨e1, e2⟩ := getLeaseName_eq_components n1 p1 n2 p2 hn1 hp1 hn2 hp2 hh1 hh2 h
    exact hne (by rw [e1, e2])
  · intro hne h
    obtain ⟨e1, e2, e3⟩ := clusterName_eq_components n1 p1 r1 n2 p2 r2 cid1 cid2
      hn1 hp1 hr1 hn2 hp2 hr2 hh1 hh2 hs1 hs2 h
    exact hne (by rw [e1, e2, e3])

/-- Witness for the amended C8 at two concrete keys differing in network. -/
theorem tenancy_names_differ_witness :
    getLeaseName "mainnet" "pool1abcdefgh" ≠ getLeaseName "preprod" "pool1abcdefgh" ∧
    getMultiTenantClusterName "mainnet" "pool1abcdefgh" "us-east-1" "cidA" ≠
      getMultiTenantClusterName "preprod" "pool1abcdefgh" "eu-west-1" "cidB" := by
  have h := tenancy_names_differ_on_distinct_components "mainnet" "pool1abcdefgh" "us-east-1"
    "preprod" "pool1abcdefgh" "eu-west-1" "cidA" "cidB"
    (by decide) (by decide) (by decide) (by decide) (by decide) (by decide)
    (by decide) (by decide) (by decide) (by decide)
  exact ⟨h.1 (by decide), h.2 (by decide)⟩

/-- Claim C9: when no producer PID can be discovered, the reload
notification is treated as delivered — `true` under the distinct
`<reason>_skipped` metric label — while a `PermissionError` on signal
delivery to a resolved PID yields `false`. -/
theorem sendSighup_fallback_and_permission (env : ProcEnv) (cachedPid : Option Int)
    (reason : String) :
    (resolvedPid env cachedPid = none →
      (sendSighupToCardanoNode env cachedPid reason).ok = true ∧
      (sendSighupToCardanoNode env cachedPid reason).metricLabel =
        some (reason ++ "_skipped")) ∧
    (∀ p, resolvedPid env cachedPid = some p → env.kill p = .permissionDenied →
      (sendSighupToCardanoNode env cachedPid reason).ok = false) := by
  constructor
  · intro h
    simp [sendSighupToCardanoNode, h]
  · intro p hp hk
    simp [sendSighupToCardanoNode, hp, hk]

/-- Witness for C9: a concrete cross-container fallback and a concrete
permission failure. -/
theorem sendSighup_fallback_and_permission_witness :
    (sendSighupToCardanoNode
      { pidExists := fun _ => false, discoverPid := none, kill := fun _ => .delivered }
      none "credential_change").ok = true ∧
    (sendSighupToCardanoNode
      { pidExists := fun _ => false, discoverPid := none, kill := fun _ => .delivered }
      none "credential_change").metricLabel = some ("credential_change" ++ "_skipped") ∧
    (sendSighupToCardanoNode
      { pidExists := fun _ => true, discoverPid := none, kill := fun _ => .permissionDenied }
      (some 5) "credential_change").ok = false := by
  have h1 := sendSighup_fallback_and_permission
    { pidExists := fun _ => false, discoverPid := none, kill := fun _ => .delivered }
    none "credential_change"
  have h2 := sendSighup_fallback_and_permission
    { pidExists := fun _ => true, discoverPid := none, kill := fun _ => .permissionDenied }
    (some 5) "credential_change"
  exact ⟨(h1.1 rfl).1, (h1.1 rfl).2, h2.2 5 rfl rfl⟩

/-- Claim C10: with an enabled override whose `expiresAt` is absent, empty,
or unparsable, the effective-state computation ignores the override
entirely: it equals the fall-through computation over forge state, base
priority and the health counter, and equals the computation on the same
manager with the override removed. -/
theorem override_ignored_without_valid_expiry (m : ClusterForgeManager) (spec : ClusterSpec)
    (oc : OverrideConfig) (parseTime : String → Option Int) (now : Int)
    (forgeState : String) (basePriority : Int)
    (hcrd : m.currentClusterCrd = some spec) (hov : spec.override = some oc)
    (hen : oc.enabled = true)
    (hbad : oc.expiresAt = none ∨ oc.expiresAt = some "" ∨
      (∃ s, oc.expiresAt = some s ∧ parseTime s = none)) :
    m.calculateEffectiveStateAndPriority parseTime now forgeState basePriority =
      m.healthAndTerminal forgeState basePriority ∧
    m.calculateEffectiveStateAndPriority parseTime now forgeState basePriority =
      ({ m with currentClusterCrd := some { spec with override := none } } :
          ClusterForgeManager).calculateEffectiveStateAndPriority parseTime now forgeState
        basePriority := by
  have hfall : m.calculateEffectiveStateAndPriority parseTime now forgeState basePriority =
      m.healthAndTerminal forgeState basePriority := by
    rcases hbad with h0 | h0 | ⟨s, hs, hp⟩
    · simp [ClusterForgeManager.calculateEffectiveStateAndPriority, hcrd, hov, hen, h0]
    · simp [ClusterForgeManager.calculateEffectiveStateAndPriority, hcrd, hov, hen, h0]
    · simp [ClusterForgeManager.calculateEffectiveStateAndPriority, hcrd, hov, hen, hs, hp]
  refine ⟨hfall, ?_⟩
  rw [hfall]
  simp [ClusterForgeManager.calculateEffectiveStateAndPriority,
    ClusterForgeManager.healthAndTerminal]

/-- Witness for C10 at a concrete enabled override with absent
`expiresAt`. -/
theorem override_ignored_without_valid_expiry_witness :
    staleOverrideManager.calculateEffectiveStateAndPriority (fun _ => none) 0
        "Priority-based" 10 =
      staleOverrideManager.healthAndTerminal "Priority-based" 10 ∧
    staleOverrideManager.calculateEffectiveStateAndPriority (fun _ => none) 0
        "Priority-based" 10 =
      ({ staleOverrideManager with
          currentClusterCrd := some { staleOverrideSpec with override := none } } :
          ClusterForgeManager).calculateEffectiveStateAndPriority (fun _ => none) 0
        "Priority-based" 10 := by
  exact override_ignored_without_valid_expiry staleOverrideManager staleOverrideSpec
    staleOverrideOc (fun _ => none) 0 "Priority-based" 10 rfl rfl rfl (Or.inl rfl)

end ForgeManager
